import Mathlib

/-!
# Verification of the FullStack-Quiz attempt lifecycle, scoring and ranking engine

Shallow embedding of `src/backend/quiz.py` (the attempt state machine,
scoring/pass policy, violation escalation, leaderboard ranking and the
single-attempt rank query).  The document store is modelled as in-memory
lists kept in insertion order; `find_one` is the first list element matching
the exact-match filter, `update_one` replaces that first element, and
`insert_one` appends.  Timestamps are modelled by their parse result:
`some t` is a timestamp that `datetime.fromisoformat` parses to `t` whole
seconds since the epoch, `none` is a missing or unparsable timestamp
(in the Python code a missing field or a malformed string — either raises
inside the `try`, which the handler catches).
-/

deriving instance DecidableEq for Except

namespace Quiz

/-- Attempt status.  Every attempt document written by the handlers carries
one of these three values (`report_violation` creates attempts with
`"IN_PROGRESS"`, `submit_quiz` writes `"PASSED"` or `"FAILED"`), so the
model makes the field total. -/
inductive Status where
  | in_progress
  | passed
  | failed
deriving DecidableEq, Repr

/-- `PASSED` and `FAILED` are the terminal states: the Python code tests
`status in ("PASSED", "FAILED")`. -/
def Status.isTerminal : Status → Bool
  | .in_progress => false
  | .passed => true
  | .failed => true

/-- A document of the `quiz_attempts` collection.  `answers` is the answer
map (question id → chosen option label) as an association list; `started_at`
and `submitted_at` are the parse results of the stored timestamp strings
(`none` = absent / unparsable).  The `violations` tag list mirrors the
`$push`-maintained array; a document inserted by `submit_quiz` has no such
field, which is observationally the empty list (nothing but `$push` reads it). -/
structure Attempt where
  student_university_number : String
  quiz_id : String
  answers : List (String × String)
  score : Nat
  violation_count : Nat
  violations : List String
  status : Status
  started_at : Option Int
  submitted_at : Option Int
deriving DecidableEq, Repr

/-- A document of the `questions` collection.  The question text and the
four option texts are carried by no modelled computation (scoring only reads
`correct_option`), so they are omitted from the model. -/
structure Question where
  qid : String
  quiz_id : String
  correct_option : String
deriving DecidableEq, Repr

/-- The document store: the `quiz_attempts` and `questions` collections in
insertion (natural) order, plus the `students` collection reduced to the
(university number, name) pairs the leaderboard reads. -/
structure DB where
  attempts : List Attempt
  questions : List Question
  students : List (String × String)
deriving DecidableEq, Repr

/-- Errors the modelled handlers raise: HTTP 404 "No active attempt found"
and HTTP 400 "Quiz already submitted". -/
inductive Err where
  | notFound
  | alreadySubmitted
deriving DecidableEq, Repr

/-- The exact-match filter `\x7b"student_university_number": univ, "quiz_id": quiz_id\x7d`. -/
def keyMatch (univ quiz_id : String) (a : Attempt) : Bool :=
  a.student_university_number == univ && a.quiz_id == quiz_id

/-- `attempts_col.find_one(\x7b"student_university_number": univ, "quiz_id": quiz_id\x7d)`:
first attempt in natural order matching the key. -/
def findAttempt (db : DB) (univ quiz_id : String) : Option Attempt :=
  db.attempts.find? (keyMatch univ quiz_id)

/-- `attempts_col.update_one` by the found document's `_id`, with a full
`$set` of the new fields: replace the first attempt matching the key. -/
def replaceFirst (l : List Attempt) (univ quiz_id : String) (a' : Attempt) : List Attempt :=
  match l with
  | [] => []
  | a :: rest =>
      if keyMatch univ quiz_id a then a' :: rest
      else a :: replaceFirst rest univ quiz_id a'

/-- Python's `str.upper()`: uppercase every character.  (`String.toUpper`
is extensionally this map, but its `mapAux` implementation does not reduce
inside the kernel, so the model maps over the character list directly.) -/
def pyUpper (s : String) : String := ⟨s.data.map Char.toUpper⟩

/-- `payload.answers.get(qid, "")`: the submitted label for a question id,
defaulting to the empty string. -/
def answerFor (answers : List (String × String)) (qid : String) : String :=
  ((answers.find? (fun p => p.1 == qid)).map Prod.snd).getD ""

/-- The scoring loop of `submit_quiz` (quiz.py lines 234-238): for every
question of the quiz count `answers.get(qid, "").upper() == q["correct_option"].upper()`. -/
def scoreLoop (answers : List (String × String)) (qs : List Question) : Nat :=
  qs.foldl
    (fun correct q =>
      if pyUpper (answerFor answers q.qid) == pyUpper q.correct_option then correct + 1
      else correct) 0

/-- The pass threshold `score >= total * 0.5` (quiz.py line 243).  Python
compares floats; `total * 0.5` is exact for every representable `total` and
the comparison against the integer `score` is exact, so it is the rational
comparison `score ≥ total / 2`, here written with the equivalent integer
test `total ≤ 2 * score` (`passThreshold_iff` proves the equivalence). -/
def passThreshold (score total : Nat) : Bool :=
  total ≤ 2 * score

/-- Response of the violation endpoint: `(violation_count, status)`. -/
abbrev ViolationResp := Nat × Status

/-- The attempt document inserted by the `__init__` branch of
`report_violation` (quiz.py lines 181-191). -/
def initAttempt (univ quiz_id : String) (now : Int) : Attempt :=
  { student_university_number := univ
    quiz_id := quiz_id
    answers := []
    score := 0
    violation_count := 0
    violations := []
    status := .in_progress
    started_at := some now
    submitted_at := none }

/-- `POST /quiz/\x7bquiz_id\x7d/violation` (quiz.py lines 173-208).
`now` is `datetime.utcnow()` at the call.  Returns the JSON response (or
the HTTP error) together with the store after the call. -/
def report_violation (db : DB) (univ quiz_id vtype : String) (now : Int) :
    Except Err ViolationResp × DB :=
  let attempt := findAttempt db univ quiz_id
  if vtype == "__init__" then
    -- __init__ sentinel: create attempt if not exists (called at quiz start)
    match attempt with
    | none =>
        (Except.ok (0, .in_progress),
          { db with attempts := db.attempts ++ [initAttempt univ quiz_id now] })
    | some _ => (Except.ok (0, .in_progress), db)
  else
    match attempt with
    | none => (Except.error .notFound, db)
    | some a =>
        if a.status ≠ .in_progress then (Except.error .notFound, db)
        else
          let new_count := a.violation_count + 1
          let escalate := vtype == "tab_switch" || new_count > 1
          let a' : Attempt :=
            { a with
              violation_count := new_count
              violations := a.violations ++ [vtype]
              status := if escalate then .failed else a.status
              submitted_at := if escalate then some now else a.submitted_at }
          (Except.ok (a'.violation_count, a'.status),
            { db with attempts := replaceFirst db.attempts univ quiz_id a' })

/-- `compute_rank` (quiz.py lines 298-310): iterate the quiz's terminal
attempts; skip the student's own; for every other attempt with positive
score increment the rank — the `try` arm computes the elapsed time, discards
it and increments, and the `except` arm also increments, so the increment is
unconditional once `score > 0`. -/
def compute_rank (db : DB) (quiz_id univ : String) : Nat :=
  (db.attempts.filter (fun a => a.quiz_id == quiz_id && a.status.isTerminal)).foldl
    (fun rank a =>
      if a.student_university_number == univ then rank
      else if a.score > 0 then rank + 1 else rank) 1

/-- Response of `POST /quiz/\x7bquiz_id\x7d/submit`. -/
structure SubmitResp where
  score : Nat
  status : Status
  violation_count : Nat
  rank : Nat
  submitted_at : Int
deriving DecidableEq, Repr

/-- `questions_col.find(\x7b"quiz_id": quiz_id\x7d)`: the quiz's full question set
in natural order (quiz.py lines 230-232). -/
def quizQuestions (db : DB) (quiz_id : String) : List Question :=
  db.questions.filter (fun q => q.quiz_id == quiz_id)

/-- The score/status block of `submit_quiz` (quiz.py lines 225-243): force
fail gives `(0, FAILED)` unconditionally; otherwise the score is the number
of matching answers over the quiz's full question set and the status is
`PASSED` iff `score >= total * 0.5 and violation_count <= 1`. -/
def submitOutcome (db : DB) (quiz_id : String) (answers : List (String × String))
    (violation_count : Nat) (force_fail : Bool) : Nat × Status :=
  if force_fail then (0, .failed)
  else
    let all_questions := quizQuestions db quiz_id
    let score := scoreLoop answers all_questions
    let total := all_questions.length
    (score, if passThreshold score total && violation_count ≤ 1 then .passed else .failed)

/-- The `attempt_doc` written by `submit_quiz` (quiz.py lines 247-256).  The
Python dict sets `"score": score if not force_fail else 0`, which equals
`score` because the force-fail branch already produced `score = 0`; the
document has no `violations` field, so `$set`-updating an existing document
keeps its tag list and inserting a fresh one leaves it (observationally)
empty — `prior_violations` carries that. -/
def submitDoc (univ quiz_id : String) (answers : List (String × String)) (score : Nat)
    (violation_count : Nat) (prior_violations : List String) (status : Status)
    (started_at : Option Int) (now : Int) : Attempt :=
  { student_university_number := univ
    quiz_id := quiz_id
    answers := answers
    score := score
    violation_count := violation_count
    violations := prior_violations
    status := status
    started_at := started_at
    submitted_at := some now }

/-- `submit_quiz` (quiz.py lines 212-294).  `started_at` is the parse result
of the client's `started_at` string, `now` is `datetime.utcnow()` at the
call.  The outbound email call reads the store but never changes it and its
failure is swallowed, so it does not appear in the model. -/
def submit_quiz (db : DB) (univ quiz_id : String) (answers : List (String × String))
    (started_at : Option Int) (force_fail : Bool) (now : Int) :
    Except Err SubmitResp × DB :=
  let existing := findAttempt db univ quiz_id
  if (existing.map (fun a => a.status.isTerminal)).getD false then
    (Except.error .alreadySubmitted, db)
  else
    let violation_count := (existing.map (fun a => a.violation_count)).getD 0
    let scoreStatus := submitOutcome db quiz_id answers violation_count force_fail
    let attempt_doc := submitDoc univ quiz_id answers scoreStatus.1 violation_count
      ((existing.map (fun a => a.violations)).getD []) scoreStatus.2 started_at now
    let db' : DB :=
      match existing with
      | some _ => { db with attempts := replaceFirst db.attempts univ quiz_id attempt_doc }
      | none => { db with attempts := db.attempts ++ [attempt_doc] }
    let rank := compute_rank db' quiz_id univ
    (Except.ok
      { score := scoreStatus.1, status := scoreStatus.2, violation_count := violation_count
        rank := rank, submitted_at := now }, db')

/-- `timedelta.seconds` for a difference of `d` whole seconds: the timedelta
is normalised to `(days, seconds)` with `0 ≤ seconds < 86400`, so the
attribute is the nonnegative remainder of `d` modulo `86400` — not the total
number of seconds. -/
def timedeltaSeconds (d : Int) : Int :=
  d.emod 86400

/-- The `time_taken` computation of `leaderboard` (quiz.py lines 318-323):
`(fromisoformat(submitted_at) - fromisoformat(started_at)).seconds`, with
the whole `try` degrading to the sentinel `99999` when either timestamp is
absent or unparsable. -/
def timeTaken (a : Attempt) : Int :=
  match a.submitted_at, a.started_at with
  | some s, some st => timedeltaSeconds (s - st)
  | _, _ => 99999

/-- A leaderboard row before ranks are attached. -/
structure Entry where
  name : String
  university_number : String
  score : Nat
  status : Status
  violation_count : Nat
  time_taken_seconds : Int
deriving DecidableEq, Repr

/-- `students_col.find_one(\x7b"university_number": univ\x7d)["name"]`, with the
"Unknown" default for a missing student document. -/
def studentName (db : DB) (univ : String) : String :=
  ((db.students.find? (fun p => p.1 == univ)).map Prod.snd).getD "Unknown"

/-- The rows the leaderboard builds before sorting: one entry per terminal
attempt of the quiz, in natural store order. -/
def leaderboardRows (db : DB) (quiz_id : String) : List Entry :=
  (db.attempts.filter (fun a => a.quiz_id == quiz_id && a.status.isTerminal)).map
    (fun a =>
      { name := studentName db a.student_university_number
        university_number := a.student_university_number
        score := a.score
        status := a.status
        violation_count := a.violation_count
        time_taken_seconds := timeTaken a })

/-- The Python sort key comparison: the tuples `(-score, time_taken_seconds)`
compared lexicographically ascending, i.e. score descending then time
ascending (`-x.score < -y.score` is `y.score < x.score`). -/
def entryLe (x y : Entry) : Bool :=
  y.score < x.score || (x.score == y.score && x.time_taken_seconds ≤ y.time_taken_seconds)

/-- `GET /quiz/\x7bquiz_id\x7d/leaderboard` (quiz.py lines 313-339): collect the
terminal attempts' rows, sort by score descending then time ascending
(Python's stable sort, modelled by the stable `List.mergeSort`), and attach
the 1-based position as `rank`. -/
def leaderboard (db : DB) (quiz_id : String) : List (Entry × Nat) :=
  ((leaderboardRows db quiz_id).mergeSort entryLe).enum.map
    (fun p => (p.2, p.1 + 1))

/-- One API call that can touch the attempts collection, with its
`datetime.utcnow()` value. -/
inductive Op where
  | violation (univ quiz_id vtype : String) (now : Int)
  | submit (univ quiz_id : String) (answers : List (String × String))
      (started_at : Option Int) (force_fail : Bool) (now : Int)

/-- The store after one API call (the response is discarded). -/
def step (db : DB) (op : Op) : DB :=
  match op with
  | .violation univ quiz_id vtype now => (report_violation db univ quiz_id vtype now).2
  | .submit univ quiz_id answers started_at force_fail now =>
      (submit_quiz db univ quiz_id answers started_at force_fail now).2

/-- The store after a sequence of API calls. -/
def steps (db : DB) (ops : List Op) : DB :=
  ops.foldl step db

/-! ## Concrete stores used as test inputs -/

/-- A store with no documents at all. -/
def dbEmpty : DB := { attempts := [], questions := [], students := [] }

/-- A four-question quiz `"q"` with correct options A, B, C, D. -/
def qs4 : List Question :=
  [ { qid := "1", quiz_id := "q", correct_option := "A" },
    { qid := "2", quiz_id := "q", correct_option := "B" },
    { qid := "3", quiz_id := "q", correct_option := "C" },
    { qid := "4", quiz_id := "q", correct_option := "D" } ]

/-- Store holding only the four-question quiz. -/
def dbQ4 : DB := { attempts := [], questions := qs4, students := [] }

/-- An in-progress attempt by student `"S"` on quiz `"q"` holding two
violations. -/
def attemptTwoViolations : Attempt :=
  { student_university_number := "S", quiz_id := "q", answers := [], score := 0
    violation_count := 2, violations := ["noise", "noise"], status := .in_progress
    started_at := some 0, submitted_at := none }

/-- The four-question quiz with the two-violation in-progress attempt. -/
def dbQ4TwoViolations : DB :=
  { attempts := [attemptTwoViolations], questions := qs4, students := [] }

/-- A failed attempt by `"S"` on `"q"` whose stored violation count is 1. -/
def attemptDone : Attempt :=
  { student_university_number := "S", quiz_id := "q", answers := [("1", "A")], score := 1
    violation_count := 1, violations := ["noise"], status := .failed
    started_at := some 0, submitted_at := some 30 }

/-- Store holding only `attemptDone`. -/
def dbDone : DB := { attempts := [attemptDone], questions := qs4, students := [] }

/-- A fresh in-progress attempt by `"S"` on `"q"` with no violations. -/
def attemptFresh : Attempt := initAttempt "S" "q" 0

/-- Store holding only `attemptFresh`. -/
def dbFresh : DB := { attempts := [attemptFresh], questions := qs4, students := [] }

/-- Two terminal attempts on quiz `"q"`: `"S1"` with the top score and
`"S2"` with a positive but lower score (the `compute_rank` failing input). -/
def dbRankPair : DB :=
  { attempts :=
      [ { student_university_number := "S1", quiz_id := "q", answers := [], score := 10
          violation_count := 0, violations := [], status := .passed
          started_at := some 0, submitted_at := some 120 },
        { student_university_number := "S2", quiz_id := "q", answers := [], score := 1
          violation_count := 0, violations := [], status := .failed
          started_at := some 0, submitted_at := some 90 } ]
    questions := [], students := [] }

/-- The spec's leaderboard trio: A(score 8, 120 s), B(score 8, 90 s),
C(score 9, 300 s), all terminal on quiz `"q"`. -/
def dbTrio : DB :=
  { attempts :=
      [ { student_university_number := "A", quiz_id := "q", answers := [], score := 8
          violation_count := 0, violations := [], status := .passed
          started_at := some 0, submitted_at := some 120 },
        { student_university_number := "B", quiz_id := "q", answers := [], score := 8
          violation_count := 0, violations := [], status := .passed
          started_at := some 0, submitted_at := some 90 },
        { student_university_number := "C", quiz_id := "q", answers := [], score := 9
          violation_count := 0, violations := [], status := .passed
          started_at := some 0, submitted_at := some 300 } ]
    questions := [], students := [] }

/-- A terminal attempt on quiz `"q"` that took one day and two minutes:
both timestamps parse and the true elapsed time is 86520 seconds. -/
def attemptLong : Attempt :=
  { student_university_number := "S", quiz_id := "q", answers := [], score := 3
    violation_count := 0, violations := [], status := .passed
    started_at := some 0, submitted_at := some 86520 }

/-- Store holding only `attemptLong`. -/
def dbLongAttempt : DB :=
  { attempts := [attemptLong], questions := [], students := [] }

/-! ## Basic lemmas about the store primitives -/

/-- The integer form of the pass threshold coincides with the exact-value
reading of the Python float comparison `score >= total * 0.5`. -/
theorem passThreshold_iff (score total : Nat) :
    passThreshold score total = true ↔ ((score : ℚ) ≥ (total : ℚ) / 2) := by
  unfold passThreshold
  rw [decide_eq_true_eq, ge_iff_le, div_le_iff₀ (by norm_num : (0 : ℚ) < 2)]
  constructor
  · intro h
    exact_mod_cast Nat.le_trans h (by omega)
  · intro h
    have : (total : ℚ) ≤ ((2 * score : Nat) : ℚ) := by push_cast; linarith
    exact_mod_cast this

theorem keyMatch_eq_true {univ quiz_id : String} {a : Attempt} :
    keyMatch univ quiz_id a = true ↔
      a.student_university_number = univ ∧ a.quiz_id = quiz_id := by
  simp [keyMatch]

theorem keyMatch_unique {u q u' q' : String} {a : Attempt}
    (h : keyMatch u q a = true) (h' : keyMatch u' q' a = true) : u = u' ∧ q = q' := by
  rw [keyMatch_eq_true] at h h'
  exact ⟨h.1.symm.trans h'.1, h.2.symm.trans h'.2⟩

theorem find?_replaceFirst_self (l : List Attempt) (u q : String) (a' : Attempt)
    (ha' : keyMatch u q a' = true) :
    (l.find? (keyMatch u q)).isSome →
      (replaceFirst l u q a').find? (keyMatch u q) = some a' := by
  induction l with
  | nil => simp
  | cons b rest ih =>
      intro hl
      by_cases hb : keyMatch u q b = true
      · simp [replaceFirst, hb, ha']
      · simp only [replaceFirst, hb, if_neg, Bool.false_eq_true, not_false_eq_true,
          ite_false, List.find?_cons_of_neg]
        simp only [List.find?_cons_of_neg _ hb] at hl ⊢
        exact ih hl

theorem find?_replaceFirst_other (l : List Attempt) (u q u' q' : String) (a' : Attempt)
    (ha' : keyMatch u q a' = true) (hne : ¬(u = u' ∧ q = q')) :
    (replaceFirst l u q a').find? (keyMatch u' q') = l.find? (keyMatch u' q') := by
  induction l with
  | nil => simp [replaceFirst]
  | cons b rest ih =>
      by_cases hb : keyMatch u q b = true
      · have hb' : ¬ keyMatch u' q' b = true := fun h => hne (keyMatch_unique hb h)
        have ha'' : ¬ keyMatch u' q' a' = true := fun h => hne (keyMatch_unique ha' h)
        simp [replaceFirst, hb, hb', ha'']
      · by_cases hb' : keyMatch u' q' b = true
        · simp [replaceFirst, hb, hb']
        · simp [replaceFirst, hb, hb', ih]

theorem findAttempt_append_of_some {db : DB} {u q : String} {a : Attempt} (l : List Attempt)
    (h : findAttempt db u q = some a) :
    (db.attempts ++ l).find? (keyMatch u q) = some a := by
  simp [findAttempt] at h
  simp [h]

/-! ## Characterisations of the handlers' branches -/

theorem report_violation_init_none (db : DB) (u q : String) (now : Int)
    (h : findAttempt db u q = none) :
    report_violation db u q "__init__" now =
      (Except.ok (0, .in_progress),
        { db with attempts := db.attempts ++ [initAttempt u q now] }) := by
  simp [report_violation, h]

theorem report_violation_init_some (db : DB) (u q : String) (now : Int) (a : Attempt)
    (h : findAttempt db u q = some a) :
    report_violation db u q "__init__" now = (Except.ok (0, .in_progress), db) := by
  simp [report_violation, h]

theorem report_violation_no_attempt (db : DB) (u q vt : String) (now : Int)
    (hvt : (vt == "__init__") = false) (h : findAttempt db u q = none) :
    report_violation db u q vt now = (Except.error .notFound, db) := by
  simp [report_violation, hvt, h]

theorem report_violation_terminal (db : DB) (u q vt : String) (now : Int) (a : Attempt)
    (hvt : (vt == "__init__") = false) (h : findAttempt db u q = some a)
    (hst : a.status ≠ .in_progress) :
    report_violation db u q vt now = (Except.error .notFound, db) := by
  simp [report_violation, hvt, h, hst]

theorem report_violation_active (db : DB) (u q vt : String) (now : Int) (a : Attempt)
    (hvt : (vt == "__init__") = false) (ha : findAttempt db u q = some a)
    (hst : a.status = .in_progress) :
    report_violation db u q vt now =
      (Except.ok (a.violation_count + 1,
          if vt == "tab_switch" || a.violation_count + 1 > 1 then Status.failed
          else Status.in_progress),
        { db with
          attempts := replaceFirst db.attempts u q
            { a with
              violation_count := a.violation_count + 1
              violations := a.violations ++ [vt]
              status :=
                if vt == "tab_switch" || a.violation_count + 1 > 1 then Status.failed
                else Status.in_progress
              submitted_at :=
                if vt == "tab_switch" || a.violation_count + 1 > 1 then some now
                else a.submitted_at } }) := by
  simp [report_violation, hvt, ha, hst]

theorem submit_quiz_already (db : DB) (u q : String) (answers : List (String × String))
    (started : Option Int) (force : Bool) (now : Int) (a : Attempt)
    (ha : findAttempt db u q = some a) (ht : a.status.isTerminal = true) :
    submit_quiz db u q answers started force now = (Except.error .alreadySubmitted, db) := by
  simp [submit_quiz, ha, ht]

theorem submit_quiz_none (db : DB) (u q : String) (answers : List (String × String))
    (started : Option Int) (force : Bool) (now : Int)
    (h : findAttempt db u q = none) :
    submit_quiz db u q answers started force now =
      (Except.ok
        { score := (submitOutcome db q answers 0 force).1
          status := (submitOutcome db q answers 0 force).2
          violation_count := 0
          rank := compute_rank
            { db with
              attempts := db.attempts ++
                [submitDoc u q answers (submitOutcome db q answers 0 force).1 0 []
                  (submitOutcome db q answers 0 force).2 started now] } q u
          submitted_at := now },
        { db with
          attempts := db.attempts ++
            [submitDoc u q answers (submitOutcome db q answers 0 force).1 0 []
              (submitOutcome db q answers 0 force).2 started now] }) := by
  simp [submit_quiz, h]

theorem submit_quiz_live (db : DB) (u q : String) (answers : List (String × String))
    (started : Option Int) (force : Bool) (now : Int) (a : Attempt)
    (ha : findAttempt db u q = some a) (ht : a.status.isTerminal = false) :
    submit_quiz db u q answers started force now =
      (Except.ok
        { score := (submitOutcome db q answers a.violation_count force).1
          status := (submitOutcome db q answers a.violation_count force).2
          violation_count := a.violation_count
          rank := compute_rank
            { db with
              attempts := replaceFirst db.attempts u q
                (submitDoc u q answers (submitOutcome db q answers a.violation_count force).1
                  a.violation_count a.violations
                  (submitOutcome db q answers a.violation_count force).2 started now) } q u
          submitted_at := now },
        { db with
          attempts := replaceFirst db.attempts u q
            (submitDoc u q answers (submitOutcome db q answers a.violation_count force).1
              a.violation_count a.violations
              (submitOutcome db q answers a.violation_count force).2 started now) }) := by
  simp [submit_quiz, ha, ht]

theorem submitOutcome_force (db : DB) (q : String) (answers : List (String × String))
    (vc : Nat) : submitOutcome db q answers vc true = (0, .failed) := rfl

theorem submitOutcome_score (db : DB) (q : String) (answers : List (String × String))
    (vc : Nat) :
    (submitOutcome db q answers vc false).1 = scoreLoop answers (quizQuestions db q) := rfl

theorem submitOutcome_status_iff (db : DB) (q : String) (answers : List (String × String))
    (vc : Nat) :
    (submitOutcome db q answers vc false).2 = .passed ↔
      ((scoreLoop answers (quizQuestions db q) : ℚ) ≥ ((quizQuestions db q).length : ℚ) / 2 ∧
        vc ≤ 1) := by
  rw [← passThreshold_iff]
  by_cases hp : passThreshold (scoreLoop answers (quizQuestions db q))
      (quizQuestions db q).length = true <;>
    by_cases hv : vc ≤ 1 <;>
      simp [submitOutcome, hp, hv]

/-! ## The claims -/

/-- C2: every Submit call that is not rejected as already submitted returns
and stores: score 0 and status FAILED when `force_fail` is set, regardless
of the answers; otherwise the computed score, with status PASSED iff the
score reaches half the number of questions (`score >= total * 0.5`,
boundary equality passing) and the prior violation count is at most 1. -/
theorem C2_submit_pass_policy (db : DB) (u q : String)
    (answers : List (String × String)) (started : Option Int) (force : Bool) (now : Int)
    (hnt : ∀ a, findAttempt db u q = some a → a.status.isTerminal = false) :
    ∃ resp : SubmitResp,
      (submit_quiz db u q answers started force now).1 = Except.ok resp ∧
      (∃ st, findAttempt (submit_quiz db u q answers started force now).2 u q = some st ∧
        st.score = resp.score ∧ st.status = resp.status) ∧
      (force = true → resp.score = 0 ∧ resp.status = .failed) ∧
      (force = false →
        resp.score = scoreLoop answers (quizQuestions db q) ∧
        (resp.status = .passed ↔
          ((scoreLoop answers (quizQuestions db q) : ℚ) ≥
              ((quizQuestions db q).length : ℚ) / 2 ∧
            ((findAttempt db u q).map (fun a => a.violation_count)).getD 0 ≤ 1))) := by
  cases hfind : findAttempt db u q with
  | none =>
      rw [submit_quiz_none db u q answers started force now hfind]
      refine ⟨_, rfl,
        ⟨submitDoc u q answers (submitOutcome db q answers 0 force).1 0 []
          (submitOutcome db q answers 0 force).2 started now, ?_, rfl, rfl⟩, ?_, ?_⟩
      · have hn : db.attempts.find? (keyMatch u q) = none := hfind
        simp [findAttempt, hn, submitDoc, keyMatch]
      · rintro rfl
        simp [submitOutcome_force]
      · rintro rfl
        exact ⟨submitOutcome_score db q answers 0,
          by simpa [hfind] using submitOutcome_status_iff db q answers 0⟩
  | some a =>
      have ht := hnt a hfind
      rw [submit_quiz_live db u q answers started force now a hfind ht]
      refine ⟨_, rfl,
        ⟨submitDoc u q answers (submitOutcome db q answers a.violation_count force).1
          a.violation_count a.violations
          (submitOutcome db q answers a.violation_count force).2 started now,
          ?_, rfl, rfl⟩, ?_, ?_⟩
      · have hs : (db.attempts.find? (keyMatch u q)).isSome := by
          have hf : db.attempts.find? (keyMatch u q) = some a := hfind
          simp [hf]
        have hrep := find?_replaceFirst_self db.attempts u q
          (submitDoc u q answers (submitOutcome db q answers a.violation_count force).1
            a.violation_count a.violations
            (submitOutcome db q answers a.violation_count force).2 started now)
          (by simp [submitDoc, keyMatch]) hs
        simpa [findAttempt] using hrep
      · rintro rfl
        simp [submitOutcome_force]
      · rintro rfl
        exact ⟨submitOutcome_score db q answers a.violation_count,
          by simpa [hfind] using submitOutcome_status_iff db q answers a.violation_count⟩

/-- Witness for C2: the spec's third concrete input — a perfect paper on the
four-question quiz submitted over an in-progress attempt carrying two
violations — instantiates the theorem; the violation cap forces FAILED. -/
theorem C2_submit_pass_policy_witness :
    ∃ resp : SubmitResp,
      (submit_quiz dbQ4TwoViolations "S" "q"
          [("1", "A"), ("2", "B"), ("3", "C"), ("4", "D")] (some 0) false 10).1 =
        Except.ok resp ∧
      (∃ st, findAttempt (submit_quiz dbQ4TwoViolations "S" "q"
            [("1", "A"), ("2", "B"), ("3", "C"), ("4", "D")] (some 0) false 10).2 "S" "q" =
          some st ∧ st.score = resp.score ∧ st.status = resp.status) ∧
      (false = true → resp.score = 0 ∧ resp.status = .failed) ∧
      (false = false →
        resp.score = scoreLoop [("1", "A"), ("2", "B"), ("3", "C"), ("4", "D")]
          (quizQuestions dbQ4TwoViolations "q") ∧
        (resp.status = .passed ↔
          ((scoreLoop [("1", "A"), ("2", "B"), ("3", "C"), ("4", "D")]
                (quizQuestions dbQ4TwoViolations "q") : ℚ) ≥
              ((quizQuestions dbQ4TwoViolations "q").length : ℚ) / 2 ∧
            ((findAttempt dbQ4TwoViolations "S" "q").map
                (fun a => a.violation_count)).getD 0 ≤ 1))) :=
  C2_submit_pass_policy dbQ4TwoViolations "S" "q"
    [("1", "A"), ("2", "B"), ("3", "C"), ("4", "D")] (some 0) false 10
    (by
      intro a ha
      have hb : a = attemptTwoViolations := by
        simpa [findAttempt, dbQ4TwoViolations, keyMatch, attemptTwoViolations] using ha.symm
      subst hb
      rfl)

/-- The spec's three concrete pass-policy cases, evaluated directly on the
model: 2 of 4 correct with no violations passes (boundary equality), 1 of 4
fails, and 4 of 4 with two prior violations fails. -/
theorem pass_policy_concrete_cases :
    ((submit_quiz dbQ4 "S" "q" [("1", "a"), ("2", "B")] (some 0) false 10).1 =
        Except.ok { score := 2, status := .passed, violation_count := 0, rank := 1, submitted_at := 10 }) ∧
    ((submit_quiz dbQ4 "S" "q" [("1", "A")] (some 0) false 10).1 =
        Except.ok { score := 1, status := .failed, violation_count := 0, rank := 1, submitted_at := 10 }) ∧
    ((submit_quiz dbQ4TwoViolations "S" "q"
          [("1", "A"), ("2", "B"), ("3", "C"), ("4", "D")] (some 0) false 10).1 =
        Except.ok { score := 4, status := .failed, violation_count := 2, rank := 1, submitted_at := 10 }) := by
  refine ⟨rfl, rfl, rfl⟩

/-- C3: a real (non-sentinel) violation report on an in-progress attempt
increments the count by exactly one, appends the type to the log, escalates
to FAILED with the submission timestamp stamped when the type is
`"tab_switch"` or the new count exceeds 1, otherwise leaves the status
IN_PROGRESS, and returns the updated count and status. -/
theorem C3_violation_escalation (db : DB) (u q vt : String) (now : Int) (a : Attempt)
    (hvt : vt ≠ "__init__") (ha : findAttempt db u q = some a)
    (hst : a.status = .in_progress) :
    (report_violation db u q vt now).1 =
      Except.ok (a.violation_count + 1,
        if vt == "tab_switch" || a.violation_count + 1 > 1 then Status.failed
        else Status.in_progress) ∧
    findAttempt (report_violation db u q vt now).2 u q = some
      { a with
        violation_count := a.violation_count + 1
        violations := a.violations ++ [vt]
        status :=
          if vt == "tab_switch" || a.violation_count + 1 > 1 then Status.failed
          else Status.in_progress
        submitted_at :=
          if vt == "tab_switch" || a.violation_count + 1 > 1 then some now
          else a.submitted_at } := by
  have hvtb : (vt == "__init__") = false := by simpa using hvt
  rw [report_violation_active db u q vt now a hvtb ha hst]
  refine ⟨rfl, ?_⟩
  have hk : keyMatch u q a = true := List.find?_some ha
  have hs : (db.attempts.find? (keyMatch u q)).isSome := by
    have hf : db.attempts.find? (keyMatch u q) = some a := ha
    simp [hf]
  have hk' : keyMatch u q
      { a with
        violation_count := a.violation_count + 1
        violations := a.violations ++ [vt]
        status :=
          if vt == "tab_switch" || a.violation_count + 1 > 1 then Status.failed
          else Status.in_progress
        submitted_at :=
          if vt == "tab_switch" || a.violation_count + 1 > 1 then some now
          else a.submitted_at } = true := by
    simpa [keyMatch] using hk
  simpa [findAttempt] using find?_replaceFirst_self db.attempts u q _ hk' hs

/-- Witness for C3: a first `"noise"` violation on a fresh attempt leaves the
status IN_PROGRESS with count 1. -/
theorem C3_violation_escalation_witness :
    ("noise" : String) ≠ "__init__" ∧
    findAttempt dbFresh "S" "q" = some attemptFresh ∧
    attemptFresh.status = .in_progress ∧
    (report_violation dbFresh "S" "q" "noise" 5).1 = Except.ok (1, .in_progress) := by
  refine ⟨by decide, rfl, rfl, ?_⟩
  have h := C3_violation_escalation dbFresh "S" "q" "noise" 5 attemptFresh
    (by decide) rfl rfl
  exact h.1.trans (by decide)

/-- C8: Submit raises the already-submitted error exactly when the stored
attempt for the key is terminal, and in that case the store is unchanged. -/
theorem C8_conflict_iff_terminal (db : DB) (u q : String)
    (answers : List (String × String)) (started : Option Int) (force : Bool) (now : Int) :
    ((submit_quiz db u q answers started force now).1 = Except.error .alreadySubmitted ↔
      ∃ a, findAttempt db u q = some a ∧ a.status.isTerminal = true) ∧
    ((submit_quiz db u q answers started force now).1 = Except.error .alreadySubmitted →
      (submit_quiz db u q answers started force now).2 = db) := by
  cases hfind : findAttempt db u q with
  | none =>
      rw [submit_quiz_none db u q answers started force now hfind]
      simp
  | some a =>
      cases hterm : a.status.isTerminal with
      | true =>
          rw [submit_quiz_already db u q answers started force now a hfind hterm]
          exact ⟨by simp [hfind, hterm], fun _ => rfl⟩
      | false =>
          rw [submit_quiz_live db u q answers started force now a hfind hterm]
          refine ⟨⟨fun hcontra => absurd hcontra (by simp), ?_⟩,
            fun hcontra => absurd hcontra (by simp)⟩
          rintro ⟨b, hb, hbt⟩
          injection hb with hb'
          subst hb'
          rw [hterm] at hbt
          exact absurd hbt (by simp)

/-- Witness for C8: submitting over the terminal attempt of `dbDone` raises
the conflict error and leaves the store unchanged. -/
theorem C8_conflict_iff_terminal_witness :
    (submit_quiz dbDone "S" "q" [] (some 0) false 10).1 = Except.error .alreadySubmitted ∧
    (submit_quiz dbDone "S" "q" [] (some 0) false 10).2 = dbDone := by
  have h := C8_conflict_iff_terminal dbDone "S" "q" [] (some 0) false 10
  have herr : (submit_quiz dbDone "S" "q" [] (some 0) false 10).1 =
      Except.error .alreadySubmitted :=
    h.1.mpr ⟨attemptDone, rfl, rfl⟩
  exact ⟨herr, h.2 herr⟩

/-- C10: on a quiz with no questions, a non-forced Submit by a student whose
prior attempt (if any) is live with at most one violation stores and
returns score 0 with status PASSED — the threshold `0 >= 0 * 0.5` holds. -/
theorem C10_empty_quiz_passes (db : DB) (u q : String)
    (answers : List (String × String)) (started : Option Int) (now : Int)
    (hq : quizQuestions db q = [])
    (hnt : ∀ a, findAttempt db u q = some a →
      a.status.isTerminal = false ∧ a.violation_count ≤ 1) :
    ∃ resp : SubmitResp,
      (submit_quiz db u q answers started false now).1 = Except.ok resp ∧
      resp.score = 0 ∧ resp.status = .passed ∧
      ∃ st, findAttempt (submit_quiz db u q answers started false now).2 u q = some st ∧
        st.score = 0 ∧ st.status = .passed := by
  cases hfind : findAttempt db u q with
  | none =>
      have hout : submitOutcome db q answers 0 false = (0, .passed) := by
        simp [submitOutcome, hq, scoreLoop, passThreshold]
      rw [submit_quiz_none db u q answers started false now hfind]
      refine ⟨_, rfl, by simp [hout], by simp [hout], ?_⟩
      refine ⟨submitDoc u q answers (submitOutcome db q answers 0 false).1 0 []
        (submitOutcome db q answers 0 false).2 started now, ?_,
        by simp [hout, submitDoc], by simp [hout, submitDoc]⟩
      have hn : db.attempts.find? (keyMatch u q) = none := hfind
      simp [findAttempt, hn, submitDoc, keyMatch]
  | some a =>
      obtain ⟨ht, hvc⟩ := hnt a hfind
      have hout : submitOutcome db q answers a.violation_count false = (0, .passed) := by
        simp [submitOutcome, hq, scoreLoop, passThreshold, hvc]
      rw [submit_quiz_live db u q answers started false now a hfind ht]
      refine ⟨_, rfl, by simp [hout], by simp [hout], ?_⟩
      refine ⟨submitDoc u q answers (submitOutcome db q answers a.violation_count false).1
        a.violation_count a.violations
        (submitOutcome db q answers a.violation_count false).2 started now,
        ?_, by simp [hout, submitDoc], by simp [hout, submitDoc]⟩
      have hs : (db.attempts.find? (keyMatch u q)).isSome := by
        have hf : db.attempts.find? (keyMatch u q) = some a := hfind
        simp [hf]
      have hrep := find?_replaceFirst_self db.attempts u q
        (submitDoc u q answers (submitOutcome db q answers a.violation_count false).1
          a.violation_count a.violations
          (submitOutcome db q answers a.violation_count false).2 started now)
        (by simp [submitDoc, keyMatch]) hs
      simpa [findAttempt] using hrep

/-- Witness for C10: submitting on the empty store (no questions, no
attempt) yields score 0 and status PASSED. -/
theorem C10_empty_quiz_passes_witness :
    ∃ resp : SubmitResp,
      (submit_quiz dbEmpty "S" "q" [] (some 0) false 10).1 = Except.ok resp ∧
      resp.score = 0 ∧ resp.status = .passed ∧
      ∃ st, findAttempt (submit_quiz dbEmpty "S" "q" [] (some 0) false 10).2 "S" "q" =
        some st ∧ st.score = 0 ∧ st.status = .passed :=
  C10_empty_quiz_passes dbEmpty "S" "q" [] (some 0) 10 rfl
    (by intro a ha; cases ha)

/-- C6 counterexample: on a store whose attempt for `("S","q")` holds
violation count 1 and status FAILED, the `__init__` call responds with
count 0 and status IN_PROGRESS — not the attempt's current count and
status, refuting the claim's response clause at this input. -/
theorem C6_counterexample :
    (report_violation dbDone "S" "q" "__init__" 5).1 = Except.ok (0, .in_progress) ∧
    findAttempt dbDone "S" "q" = some attemptDone ∧
    attemptDone.violation_count = 1 ∧
    attemptDone.status = .failed ∧
    (report_violation dbDone "S" "q" "__init__" 5).1 ≠
      Except.ok (attemptDone.violation_count, attemptDone.status) :=
  ⟨rfl, rfl, rfl, rfl, by decide⟩

/-- C6 (amended): the `__init__` sentinel is idempotent — with no stored
attempt it creates one with zero violations, empty answers, status
IN_PROGRESS and start timestamp now, and a repeated call is a no-op; with a
stored attempt it changes nothing; in both cases the response carries the
constant count 0 and status IN_PROGRESS (the fresh-attempt values), not the
stored attempt's current state. -/
theorem C6_init_idempotent (db : DB) (u q : String) (now now' : Int) :
    (findAttempt db u q = none →
      report_violation db u q "__init__" now =
        (Except.ok (0, .in_progress),
          { db with attempts := db.attempts ++ [initAttempt u q now] }) ∧
      report_violation (report_violation db u q "__init__" now).2 u q "__init__" now' =
        (Except.ok (0, .in_progress), (report_violation db u q "__init__" now).2)) ∧
    (∀ a, findAttempt db u q = some a →
      report_violation db u q "__init__" now = (Except.ok (0, .in_progress), db)) := by
  constructor
  · intro hnone
    have h1 := report_violation_init_none db u q now hnone
    refine ⟨h1, ?_⟩
    have hfind2 : findAttempt (report_violation db u q "__init__" now).2 u q =
        some (initAttempt u q now) := by
      rw [h1]
      have hn : db.attempts.find? (keyMatch u q) = none := hnone
      simp [findAttempt, hn, initAttempt, keyMatch]
    exact report_violation_init_some _ u q now' _ hfind2
  · intro a ha
    exact report_violation_init_some db u q now a ha

/-- Witness for C6 (amended): creation plus idempotence on the empty store,
and the no-op on a store with a terminal attempt. -/
theorem C6_init_idempotent_witness :
    (report_violation dbEmpty "S" "q" "__init__" 0 =
      (Except.ok (0, .in_progress),
        { dbEmpty with attempts := dbEmpty.attempts ++ [initAttempt "S" "q" 0] }) ∧
     report_violation (report_violation dbEmpty "S" "q" "__init__" 0).2 "S" "q" "__init__" 7 =
      (Except.ok (0, .in_progress), (report_violation dbEmpty "S" "q" "__init__" 0).2)) ∧
    report_violation dbDone "S" "q" "__init__" 0 = (Except.ok (0, .in_progress), dbDone) :=
  ⟨(C6_init_idempotent dbEmpty "S" "q" 0 7).1 rfl,
    (C6_init_idempotent dbDone "S" "q" 0 7).2 attemptDone rfl⟩

theorem foldl_count_aux {α : Type} (p : α → Bool) (l : List α) (n : Nat) :
    l.foldl (fun c x => if p x then c + 1 else c) n = n + l.countP p := by
  induction l generalizing n with
  | nil => simp
  | cons x l ih =>
      by_cases hx : p x = true
      · simp [List.foldl_cons, hx, ih, List.countP_cons]
        omega
      · simp [List.foldl_cons, hx, ih, List.countP_cons]

theorem scoreLoop_eq_countP (answers : List (String × String)) (qs : List Question) :
    scoreLoop answers qs =
      qs.countP (fun qq => pyUpper (answerFor answers qq.qid) == pyUpper qq.correct_option) := by
  simpa [scoreLoop] using
    foldl_count_aux (fun qq => pyUpper (answerFor answers qq.qid) == pyUpper qq.correct_option)
      qs 0

/-- C7: the score is the count, over the quiz's full question set, of
questions whose correct label equals the submitted label case-insensitively
(a missing answer is the empty string); when the correct labels are the
option labels A-D, a missing answer never matches, and dropping the
unanswered questions does not change the score.  Determinism is built in:
`scoreLoop` is a pure function of `(answers, questions)`. -/
theorem C7_scoring (answers : List (String × String)) (qs : List Question)
    (hlab : ∀ qq ∈ qs, qq.correct_option ∈ (["A", "B", "C", "D"] : List String)) :
    scoreLoop answers qs =
      qs.countP (fun qq => pyUpper (answerFor answers qq.qid) == pyUpper qq.correct_option) ∧
    (∀ qq ∈ qs, answers.find? (fun p => p.1 == qq.qid) = none →
      (pyUpper (answerFor answers qq.qid) == pyUpper qq.correct_option) = false) ∧
    scoreLoop answers qs =
      scoreLoop answers
        (qs.filter (fun qq => (answers.find? (fun p => p.1 == qq.qid)).isSome)) := by
  have hmiss : ∀ qq ∈ qs, answers.find? (fun p => p.1 == qq.qid) = none →
      (pyUpper (answerFor answers qq.qid) == pyUpper qq.correct_option) = false := by
    intro qq hmem hnone
    have hemp : answerFor answers qq.qid = "" := by simp [answerFor, hnone]
    rw [hemp]
    have hl := hlab qq hmem
    simp only [List.mem_cons, List.not_mem_nil, or_false] at hl
    rcases hl with h | h | h | h <;> rw [h] <;> decide
  refine ⟨scoreLoop_eq_countP answers qs, hmiss, ?_⟩
  rw [scoreLoop_eq_countP, scoreLoop_eq_countP, List.countP_filter]
  apply List.countP_congr
  intro qq hmem
  by_cases hans : (answers.find? (fun p => p.1 == qq.qid)).isSome = true
  · simp [hans]
  · have hnone : answers.find? (fun p => p.1 == qq.qid) = none :=
      Option.not_isSome_iff_eq_none.mp hans
    simp [hmiss qq hmem hnone]

/-- Witness for C7: answers `1 ↦ a` (correct, case-insensitively) and
`3 ↦ X` (wrong) over the four-question quiz. -/
theorem C7_scoring_witness :
    scoreLoop [("1", "a"), ("3", "X")] qs4 =
      qs4.countP
        (fun qq => pyUpper (answerFor [("1", "a"), ("3", "X")] qq.qid) ==
          pyUpper qq.correct_option) ∧
    (∀ qq ∈ qs4, [("1", "a"), ("3", "X")].find? (fun p => p.1 == qq.qid) = none →
      (pyUpper (answerFor [("1", "a"), ("3", "X")] qq.qid) ==
        pyUpper qq.correct_option) = false) ∧
    scoreLoop [("1", "a"), ("3", "X")] qs4 =
      scoreLoop [("1", "a"), ("3", "X")]
        (qs4.filter
          (fun qq => ([("1", "a"), ("3", "X")].find? (fun p => p.1 == qq.qid)).isSome)) :=
  C7_scoring [("1", "a"), ("3", "X")] qs4 (by decide)

/-- C9 counterexample: both timestamps of `attemptLong` parse and their
difference is 86520 whole seconds, yet the leaderboard reports 120 — the
`.seconds` attribute of the Python timedelta, not the total difference. -/
theorem C9_counterexample :
    dbLongAttempt.attempts = [attemptLong] ∧
    attemptLong.started_at = some 0 ∧
    attemptLong.submitted_at = some 86520 ∧
    attemptLong.status.isTerminal = true ∧
    (leaderboard dbLongAttempt "q").map (fun p => p.1.time_taken_seconds) = [(120 : Int)] ∧
    ((86520 : Int) - 0 ≠ 120) := by
  refine ⟨rfl, rfl, rfl, rfl, ?_, by decide⟩
  simp +decide [leaderboard, leaderboardRows, dbLongAttempt, attemptLong, studentName,
    timeTaken, timedeltaSeconds, Status.isTerminal, List.enum, List.enumFrom, Int.emod]

/-- C9 (amended): when both timestamps parse, the reported time is the
nonnegative remainder of the difference modulo 86400 (Python's
`timedelta.seconds`), which equals the whole-second difference exactly when
that difference lies in `[0, 86400)`; when either timestamp is missing or
unparsable the sentinel 99999 is reported; and every terminal attempt still
yields a leaderboard row, so one malformed attempt never aborts the
computation. -/
theorem C9_time_taken (db : DB) (qid : String) (a : Attempt) :
    (∀ s st : Int, a.submitted_at = some s → a.started_at = some st →
      timeTaken a = (s - st).emod 86400 ∧
      (0 ≤ s - st → s - st < 86400 → timeTaken a = s - st)) ∧
    ((a.submitted_at = none ∨ a.started_at = none) → timeTaken a = 99999) ∧
    (leaderboard db qid).length =
      (db.attempts.filter (fun x => x.quiz_id == qid && x.status.isTerminal)).length := by
  refine ⟨?_, ?_, ?_⟩
  · intro s st hs hst
    refine ⟨by simp [timeTaken, hs, hst, timedeltaSeconds], ?_⟩
    intro h1 h2
    simp only [timeTaken, hs, hst, timedeltaSeconds]
    exact Int.emod_eq_of_lt h1 h2
  · rintro (h | h)
    · cases hst : a.started_at <;> simp [timeTaken, h, hst]
    · cases hsub : a.submitted_at <;> simp [timeTaken, h, hsub]
  · simp [leaderboard, leaderboardRows]

/-- Witness for C9 (amended): the 30-second attempt reports its exact
duration, the fresh (unsubmitted) attempt reports the sentinel, and the
one-day attempt still produces exactly one leaderboard row. -/
theorem C9_time_taken_witness :
    timeTaken attemptDone = 30 - 0 ∧
    timeTaken attemptFresh = 99999 ∧
    (leaderboard dbLongAttempt "q").length =
      (dbLongAttempt.attempts.filter
        (fun x => x.quiz_id == "q" && x.status.isTerminal)).length :=
  ⟨((C9_time_taken dbDone "q" attemptDone).1 30 0 rfl rfl).2 (by norm_num) (by norm_num),
    (C9_time_taken dbFresh "q" attemptFresh).2.1 (Or.inl rfl),
    (C9_time_taken dbLongAttempt "q" attemptLong).2.2⟩

/-- One API call preserves any attempt found for a key: the attempt stays
findable, its violation count never decreases, and a terminal attempt is
returned entirely unchanged. -/
theorem step_preserves_attempt (db : DB) (op : Op) (u q : String) (a : Attempt)
    (ha : findAttempt db u q = some a) :
    ∃ a', findAttempt (step db op) u q = some a' ∧
      a.violation_count ≤ a'.violation_count ∧
      (a.status.isTerminal = true → a' = a) := by
  have hk : keyMatch u q a = true := List.find?_some ha
  have hsome : (db.attempts.find? (keyMatch u q)).isSome := by
    have hf : db.attempts.find? (keyMatch u q) = some a := ha
    simp [hf]
  cases op with
  | violation u' q' vt now =>
      show ∃ a', findAttempt (report_violation db u' q' vt now).2 u q = some a' ∧ _
      by_cases hvt : (vt == "__init__") = true
      · have hvt' : vt = "__init__" := eq_of_beq hvt
        subst hvt'
        cases hfind' : findAttempt db u' q' with
        | none =>
            rw [report_violation_init_none db u' q' now hfind']
            exact ⟨a, findAttempt_append_of_some _ ha, Nat.le_refl _, fun _ => rfl⟩
        | some b =>
            rw [report_violation_init_some db u' q' now b hfind']
            exact ⟨a, ha, Nat.le_refl _, fun _ => rfl⟩
      · have hvtf : (vt == "__init__") = false := by
          cases hb : (vt == "__init__") with
          | false => rfl
          | true => exact absurd hb hvt
        cases hfind' : findAttempt db u' q' with
        | none =>
            rw [report_violation_no_attempt db u' q' vt now hvtf hfind']
            exact ⟨a, ha, Nat.le_refl _, fun _ => rfl⟩
        | some b =>
            by_cases hbst : b.status = .in_progress
            · rw [report_violation_active db u' q' vt now b hvtf hfind' hbst]
              have hkb : keyMatch u' q' b = true := List.find?_some hfind'
              by_cases hkey : u = u' ∧ q = q'
              · obtain ⟨rfl, rfl⟩ := hkey
                have hab : a = b := by
                  rw [ha] at hfind'
                  exact Option.some_injective _ hfind'
                subst hab
                have hk2 : keyMatch u q
                    { a with
                      violation_count := a.violation_count + 1
                      violations := a.violations ++ [vt]
                      status :=
                        if vt == "tab_switch" || a.violation_count + 1 > 1 then
                          Status.failed
                        else Status.in_progress
                      submitted_at :=
                        if vt == "tab_switch" || a.violation_count + 1 > 1 then some now
                        else a.submitted_at } = true := by
                  simpa [keyMatch] using hk
                refine ⟨{ a with
                    violation_count := a.violation_count + 1
                    violations := a.violations ++ [vt]
                    status :=
                      if vt == "tab_switch" || a.violation_count + 1 > 1 then
                        Status.failed
                      else Status.in_progress
                    submitted_at :=
                      if vt == "tab_switch" || a.violation_count + 1 > 1 then some now
                      else a.submitted_at },
                  find?_replaceFirst_self db.attempts u q _ hk2 hsome, by simp, ?_⟩
                intro hterm
                rw [hbst] at hterm
                exact absurd hterm (by simp [Status.isTerminal])
              · have hb' : keyMatch u' q'
                    { b with
                      violation_count := b.violation_count + 1
                      violations := b.violations ++ [vt]
                      status :=
                        if vt == "tab_switch" || b.violation_count + 1 > 1 then
                          Status.failed
                        else Status.in_progress
                      submitted_at :=
                        if vt == "tab_switch" || b.violation_count + 1 > 1 then some now
                        else b.submitted_at } = true := by
                  simpa [keyMatch] using hkb
                have hne : ¬(u' = u ∧ q' = q) := fun h => hkey ⟨h.1.symm, h.2.symm⟩
                refine ⟨a, ?_, Nat.le_refl _, fun _ => rfl⟩
                show (replaceFirst db.attempts u' q' _).find? (keyMatch u q) = some a
                rw [find?_replaceFirst_other db.attempts u' q' u q _ hb' hne]
                exact ha
            · rw [report_violation_terminal db u' q' vt now b hvtf hfind' hbst]
              exact ⟨a, ha, Nat.le_refl _, fun _ => rfl⟩
  | submit u' q' answers started force now =>
      show ∃ a', findAttempt (submit_quiz db u' q' answers started force now).2 u q =
        some a' ∧ _
      cases hfind' : findAttempt db u' q' with
      | none =>
          rw [submit_quiz_none db u' q' answers started force now hfind']
          exact ⟨a, findAttempt_append_of_some _ ha, Nat.le_refl _, fun _ => rfl⟩
      | some b =>
          cases hterm : b.status.isTerminal with
          | true =>
              rw [submit_quiz_already db u' q' answers started force now b hfind' hterm]
              exact ⟨a, ha, Nat.le_refl _, fun _ => rfl⟩
          | false =>
              rw [submit_quiz_live db u' q' answers started force now b hfind' hterm]
              have hdockey : keyMatch u' q'
                  (submitDoc u' q' answers
                    (submitOutcome db q' answers b.violation_count force).1
                    b.violation_count b.violations
                    (submitOutcome db q' answers b.violation_count force).2 started now) =
                  true := by
                simp [submitDoc, keyMatch]
              by_cases hkey : u = u' ∧ q = q'
              · obtain ⟨rfl, rfl⟩ := hkey
                have hab : a = b := by
                  rw [ha] at hfind'
                  exact Option.some_injective _ hfind'
                subst hab
                refine ⟨submitDoc u q answers
                    (submitOutcome db q answers a.violation_count force).1
                    a.violation_count a.violations
                    (submitOutcome db q answers a.violation_count force).2 started now,
                  find?_replaceFirst_self db.attempts u q _ hdockey hsome,
                  by simp [submitDoc], ?_⟩
                intro hterma
                rw [hterma] at hterm
                cases hterm
              · have hne : ¬(u' = u ∧ q' = q) := fun h => hkey ⟨h.1.symm, h.2.symm⟩
                refine ⟨a, ?_, Nat.le_refl _, fun _ => rfl⟩
                show (replaceFirst db.attempts u' q' _).find? (keyMatch u q) = some a
                rw [find?_replaceFirst_other db.attempts u' q' u q _ hdockey hne]
                exact ha

/-- C4: under any sequence of violation/initialize/submit calls, an attempt
stored for a key stays stored, its violation count never decreases, and if
its status is terminal (PASSED or FAILED) no field of it ever changes — in
particular a status never leaves a terminal state. -/
theorem C4_terminal_frozen (db : DB) (ops : List Op) (u q : String) (a : Attempt)
    (ha : findAttempt db u q = some a) :
    ∃ a', findAttempt (steps db ops) u q = some a' ∧
      a.violation_count ≤ a'.violation_count ∧
      (a.status.isTerminal = true → a' = a) := by
  induction ops generalizing db a with
  | nil => exact ⟨a, ha, Nat.le_refl _, fun _ => rfl⟩
  | cons op ops ih =>
      obtain ⟨a1, h1, hc1, ht1⟩ := step_preserves_attempt db op u q a ha
      obtain ⟨a2, h2, hc2, ht2⟩ := ih (step db op) a1 h1
      refine ⟨a2, by simpa [steps, List.foldl_cons] using h2, Nat.le_trans hc1 hc2, ?_⟩
      intro hterm
      have e1 : a1 = a := ht1 hterm
      subst e1
      exact ht2 hterm

/-- Witness for C4: the terminal attempt of `dbDone` survives a violation
report, a replayed submit and an initialize unchanged. -/
theorem C4_terminal_frozen_witness :
    ∃ a', findAttempt
        (steps dbDone
          [Op.violation "S" "q" "noise" 1,
           Op.submit "S" "q" [] (some 0) false 2,
           Op.violation "S" "q" "__init__" 3]) "S" "q" = some a' ∧
      attemptDone.violation_count ≤ a'.violation_count ∧
      (attemptDone.status.isTerminal = true → a' = attemptDone) :=
  C4_terminal_frozen dbDone
    [Op.violation "S" "q" "noise" 1,
     Op.submit "S" "q" [] (some 0) false 2,
     Op.violation "S" "q" "__init__" 3] "S" "q" attemptDone rfl

theorem entryLe_trans : ∀ (a b c : Entry), entryLe a b → entryLe b c → entryLe a c := by
  intro a b c hab hbc
  simp [entryLe] at *
  omega

theorem entryLe_total : ∀ (a b : Entry), entryLe a b || entryLe b a := by
  intro a b
  simp [entryLe]
  omega

theorem leaderboard_map_fst (db : DB) (qid : String) :
    (leaderboard db qid).map Prod.fst = (leaderboardRows db qid).mergeSort entryLe := by
  rw [leaderboard, List.map_map]
  have h : (Prod.fst ∘ fun p : Nat × Entry => (p.2, p.1 + 1)) = Prod.snd := rfl
  rw [h]
  exact List.enumFrom_map_snd 0 _

/-- C5: the leaderboard's entries are exactly the rows built from the quiz's
terminal attempts (a permutation of `leaderboardRows`, which filters the
attempts to terminal status), they are sorted by score descending then
time-taken ascending, each entry's rank is its 1-based position, and on the
spec's trio A(8, 120 s), B(8, 90 s), C(9, 300 s) the order is C, B, A with
ranks 1, 2, 3. -/
theorem C5_leaderboard_ordering (db : DB) (qid : String) :
    ((leaderboard db qid).map Prod.fst).Perm (leaderboardRows db qid) ∧
    ((leaderboard db qid).map Prod.fst).Pairwise
      (fun x y => y.score < x.score ∨
        (x.score = y.score ∧ x.time_taken_seconds ≤ y.time_taken_seconds)) ∧
    (∀ i (h : i < (leaderboard db qid).length),
      ((leaderboard db qid).get ⟨i, h⟩).2 = i + 1) ∧
    (leaderboard dbTrio "q").map (fun p => (p.1.university_number, p.2)) =
      [("C", 1), ("B", 2), ("A", 3)] := by
  refine ⟨?_, ?_, ?_, ?_⟩
  · rw [leaderboard_map_fst]
    exact List.mergeSort_perm _ _
  · rw [leaderboard_map_fst]
    have hp := List.sorted_mergeSort entryLe_trans entryLe_total (leaderboardRows db qid)
    refine hp.imp ?_
    intro x y h
    simpa [entryLe] using h
  · intro i h
    simp [leaderboard, List.get_eq_getElem]
  · simp +decide [leaderboard, leaderboardRows, dbTrio, studentName, timeTaken,
      timedeltaSeconds, entryLe, List.mergeSort, List.splitInTwo, List.merge,
      Status.isTerminal, List.enum, List.enumFrom, Int.emod]

/-- Witness for C5: the trio leaderboard is nonempty and its first entry
carries rank 1. -/
theorem C5_leaderboard_ordering_witness :
    ∃ h : 0 < (leaderboard dbTrio "q").length,
      ((leaderboard dbTrio "q").get ⟨0, h⟩).2 = 0 + 1 := by
  have hlen : 0 < (leaderboard dbTrio "q").length := by
    simp +decide [leaderboard, leaderboardRows, dbTrio, Status.isTerminal]
  exact ⟨hlen, (C5_leaderboard_ordering dbTrio "q").2.2.1 0 hlen⟩

/-- C1 (code bug): on a store with two terminal attempts — `"S1"` with the
top score 10 and `"S2"` with score 1 — the leaderboard assigns `"S1"` rank 1,
yet `compute_rank` returns 2 for `"S1"`: it increments once for every other
terminal attempt with positive score without ever comparing scores or
times (its computed elapsed time is discarded, and the `try` and `except`
arms increment identically), contradicting both the single-attempt rank
contract and the in-code comment "Higher score = better rank". -/
theorem C1_rank_query_divergence :
    compute_rank dbRankPair "q" "S1" = 2 ∧
    (leaderboard dbRankPair "q").map (fun p => (p.1.university_number, p.2)) =
      [("S1", 1), ("S2", 2)] := by
  refine ⟨rfl, ?_⟩
  simp +decide [leaderboard, leaderboardRows, dbRankPair, studentName, timeTaken,
    timedeltaSeconds, entryLe, List.mergeSort, List.splitInTwo, List.merge,
    Status.isTerminal, List.enum, List.enumFrom, Int.emod]

end Quiz
